import Mathlib

/-
Verification development for the hireflow Answer Evaluation & Interview
Progression Engine.

The Python source is shallowly embedded: SQLAlchemy sessions become an
explicit record of tables (lists of rows), external OpenAI calls become
oracle parameters, Python floats become exact rationals, and functions
that can raise return `Except` or pair the error into the returned value,
exactly as the source either raises or returns error dicts.
-/

namespace Hireflow

/-! ## Python-style truthiness helpers

Python treats `None`, the empty string, the empty list and the empty dict
as falsy; the source guards several branches with such truthiness tests. -/

/-- Truthiness of an optional string: `None` and `""` are falsy. -/
def truthyOptStr : Option String → Bool
  | none => false
  | some s => !(s == "")

/-- Truthiness of a plain string: `""` is falsy. -/
def truthyStr (s : String) : Bool := !(s == "")

/-- Truthiness of an optional list: `None` and `[]` are falsy. -/
def truthyOptList {α : Type} : Option (List α) → Bool
  | none => false
  | some l => !l.isEmpty

/-! ## Python string primitives

`str.lower()`, `str.strip()` and `str.split(sep)` are embedded as
structurally recursive functions over the character list of the string
(ASCII case folding, which is what the texts in play use). -/

/-- `str.lower()`. -/
def pyLower (s : String) : String := ⟨s.data.map Char.toLower⟩

/-- The whitespace removed by `str.strip()`. -/
def isPySpace (c : Char) : Bool :=
  c == ' ' || c == '\t' || c == '\n' || c == '\r' || c == '\x0b' || c == '\x0c'

/-- `str.strip()`. -/
def pyStrip (s : String) : String :=
  ⟨((s.data.dropWhile isPySpace).reverse.dropWhile isPySpace).reverse⟩

/-- Worker for `pySplit`. -/
def splitAux (sep : Char) : List Char → List Char → List String
  | [], acc => [⟨acc.reverse⟩]
  | c :: rest, acc =>
    if c == sep then ⟨acc.reverse⟩ :: splitAux sep rest []
    else splitAux sep rest (c :: acc)

/-- `str.split(sep)` for a one-character separator: every occurrence
splits, empty parts included. -/
def pySplit (s : String) (sep : Char) : List String := splitAux sep s.data []

/-! ## VectorMath: `cosine_similarity` (services/candidate_service.py, lines 194-210)

Embeddings are lists of rationals (exact model of the float vectors).
The float expression `np.linalg.norm(va) * np.linalg.norm(vb)` is zero
exactly when `sumSq va = 0` or `sumSq vb = 0`, so the zero-denominator
guard is embedded as a test on the product of the sums of squares.
The value returned in the non-degenerate branch is `dot / sqrt (s1 * s2)`;
since the square root of a rational is not rational, that value is kept
in exact symbolic form by `CosValue.val dot (s1 * s2)`. -/

/-- `np.dot` on two equal-length vectors. -/
def dotList (a b : List ℚ) : ℚ := (List.zipWith (fun x y => x * y) a b).sum

/-- Sum of squares of the entries; `np.linalg.norm v = Real.sqrt (sumSq v)`. -/
def sumSq (l : List ℚ) : ℚ := (l.map (fun x => x * x)).sum

/-- Exact value of the float returned by `cosine_similarity`:
`zero` is the literal `0.0` of the zero-denominator guard, and
`val d s` denotes the real number `d / Real.sqrt s`. -/
inductive CosValue : Type
  | zero : CosValue
  | val (dot : ℚ) (normSqProd : ℚ) : CosValue
deriving DecidableEq, Repr

/-- `cosine_similarity(a, b)` from services/candidate_service.py.
Raises (`Except.error`) on an empty vector; truncates both vectors to the
shorter length on shape mismatch (`take (min ..)` is the identity when the
lengths agree); returns `0.0` when the denominator is zero. -/
def cosine_similarity (a b : List ℚ) : Except String CosValue :=
  if a.length = 0 ∨ b.length = 0 then Except.error "Empty vectors"
  else
    let n := min a.length b.length
    let va := a.take n
    let vb := b.take n
    if sumSq va * sumSq vb = 0 then Except.ok CosValue.zero
    else Except.ok (CosValue.val (dotList va vb) (sumSq va * sumSq vb))

lemma sumSq_nonneg (l : List ℚ) : 0 ≤ sumSq l := by
  induction l with
  | nil => simp [sumSq]
  | cons x xs ih =>
    simp only [sumSq, List.map_cons, List.sum_cons] at *
    have := mul_self_nonneg x
    linarith

lemma sumSq_append (l₁ l₂ : List ℚ) : sumSq (l₁ ++ l₂) = sumSq l₁ + sumSq l₂ := by
  simp [sumSq]

lemma sumSq_take_eq_zero {l : List ℚ} (h : sumSq l = 0) (n : ℕ) :
    sumSq (l.take n) = 0 := by
  have hsplit := sumSq_append (l.take n) (l.drop n)
  rw [List.take_append_drop] at hsplit
  have h1 := sumSq_nonneg (l.take n)
  have h2 := sumSq_nonneg (l.drop n)
  linarith

end Hireflow

namespace Hireflow

/-- C8: for every pair of non-empty vectors, `cosine_similarity` returns a
value and never reaches the error branch; and whenever either vector has
zero magnitude (sum of squares zero), the returned value is the literal
`0.0` of the guarded-division branch. -/
theorem cosine_similarity_zero_magnitude_guard (a b : List ℚ)
    (ha : a ≠ []) (hb : b ≠ []) :
    (∃ v, cosine_similarity a b = Except.ok v) ∧
      ((sumSq a = 0 ∨ sumSq b = 0) →
        cosine_similarity a b = Except.ok CosValue.zero) := by
  have hlen : ¬(a.length = 0 ∨ b.length = 0) := by
    push_neg
    exact ⟨by simpa using ha, by simpa using hb⟩
  constructor
  · unfold cosine_similarity
    rw [if_neg hlen]
    dsimp only
    split
    · exact ⟨_, rfl⟩
    · exact ⟨_, rfl⟩
  · intro hz
    have hzero : sumSq (a.take (min a.length b.length)) *
        sumSq (b.take (min a.length b.length)) = 0 := by
      rcases hz with h | h
      · rw [sumSq_take_eq_zero h, zero_mul]
      · rw [sumSq_take_eq_zero h, mul_zero]
    unfold cosine_similarity
    rw [if_neg hlen]
    dsimp only
    rw [if_pos hzero]

/-- Concrete instance of `cosine_similarity_zero_magnitude_guard`: the zero
vector `[0, 0]` against `[1, 2]` yields `0.0` without error. -/
theorem cosine_similarity_zero_magnitude_guard_witness :
    ([(0 : ℚ), 0] ≠ [] ∧ [(1 : ℚ), 2] ≠ []) ∧
      ((∃ v, cosine_similarity [(0 : ℚ), 0] [1, 2] = Except.ok v) ∧
        ((sumSq [(0 : ℚ), 0] = 0 ∨ sumSq [(1 : ℚ), 2] = 0) →
          cosine_similarity [(0 : ℚ), 0] [1, 2] = Except.ok CosValue.zero)) :=
  ⟨⟨by decide, by decide⟩,
    cosine_similarity_zero_magnitude_guard [0, 0] [1, 2] (by decide) (by decide)⟩

/-! ## Data model for interview submission (models/*.py)

Rows carry exactly the columns the embedded services read or write; the
session is a record of tables. -/

/-- Row of the `interviews` table (models/interview.py). -/
structure Interview : Type where
  id : ℕ
  candidate_id : ℕ
  job_id : ℕ
  status : String
  evaluation_status : String
  final_score : Option ℚ
deriving DecidableEq, Repr

/-- Row of the `questions` table (models/question.py). -/
structure Question : Type where
  id : ℕ
  interview_id : ℕ
  question_text : String
  model_answer : Option String
  model_answer_embedding : Option (List ℚ)
deriving DecidableEq, Repr

/-- Row of the `candidate_answers` table (models/candidate_answer.py). -/
structure CandidateAnswer : Type where
  candidate_id : ℕ
  question_id : ℕ
  interview_id : ℕ
  answer_text : String
  answer_embedding : Option (List ℚ)
  semantic_similarity : Option CosValue
  llm_score : Option ℚ
  feedback : Option String
deriving DecidableEq, Repr

/-- Row of the `question_feedback` table (models/question_feedback.py). -/
structure QuestionFeedback : Type where
  question_id : ℕ
  is_good : Bool
deriving DecidableEq, Repr

/-- The session state visible to `save_candidate_answers`. -/
structure SubmitDB : Type where
  interviews : List Interview
  questions : List Question
  candidate_answers : List CandidateAnswer
deriving DecidableEq, Repr

/-- Outcome of one `evaluate_answer_with_llm` call, as observed by the
caller: the call raises (caught per answer, line 145), returns a falsy
value (`None` or an empty dict), or returns a dict whose optional
`score` and `feedback` entries are given. -/
inductive LLMEval : Type
  | raises : LLMEval
  | noResult : LLMEval
  | result (score : Option ℚ) (feedback : Option String) : LLMEval

/-- The dict returned by `save_candidate_answers`: the early error returns
carry no `similarities` key (`none`), the success return carries no
`error` key (`none`). -/
structure SaveResult : Type where
  saved_count : ℕ
  similarities : Option (List CosValue)
  error : Option String
deriving DecidableEq, Repr

/-! ## `save_candidate_answers` (services/candidate_service.py, lines 72-191)

The LLM judge is the oracle `evalLLM`, keyed by the three call arguments
`(question_text, model_answer, answer_text)`.  Exceptions raised by the
judge or by `cosine_similarity` are caught inside the loop (per-answer
isolation); the one uncaught failure point of the `try` block that is not
an early `return`/`raise` is the database interaction itself, modelled by
`commitErr`: `some msg` means `db.commit()` raises an exception whose
string is `msg`, sending control to the `except` handler which rolls the
transaction back and returns the error as data. -/

/-- Body of the `for qid, answer_text in answers.items()` loop: accumulates
the `saved` rows, the `similarities` list and the `llm_scores` list. -/
def processAnswer (db : SubmitDB) (evalLLM : String → String → String → LLMEval)
    (cand_id interview_id : ℕ) (answer_embeddings : Option (List (ℕ × List ℚ)))
    (acc : List CandidateAnswer × List CosValue × List ℚ) (qa : ℕ × String) :
    List CandidateAnswer × List CosValue × List ℚ :=
  match db.questions.find? (fun q => q.id == qa.1) with
  | none => acc
  | some question =>
    let emb : Option (List ℚ) :=
      match answer_embeddings with
      | none => none
      | some aes =>
        if aes.isEmpty then none
        else match aes.find? (fun p => p.1 == qa.1) with
          | some p => some p.2
          | none => none
    let simPair : Option CosValue × List CosValue :=
      if truthyOptList question.model_answer_embedding && truthyOptList emb then
        match cosine_similarity (question.model_answer_embedding.getD [])
            (emb.getD []) with
        | Except.ok v => (some v, acc.2.1 ++ [v])
        | Except.error _ => (none, acc.2.1)
      else (none, acc.2.1)
    let llmTriple : Option ℚ × Option String × List ℚ :=
      if truthyOptStr question.model_answer && truthyStr qa.2 then
        match evalLLM question.question_text (question.model_answer.getD "") qa.2 with
        | LLMEval.result (some sc) fb => (some sc, fb, acc.2.2 ++ [sc])
        | LLMEval.result none fb => (none, fb, acc.2.2)
        | _ => (none, none, acc.2.2)
      else (none, none, acc.2.2)
    let row : CandidateAnswer :=
      { candidate_id := cand_id
        question_id := question.id
        interview_id := interview_id
        answer_text := qa.2
        answer_embedding := emb
        semantic_similarity := simPair.1
        llm_score := llmTriple.1
        feedback := llmTriple.2.1 }
    (acc.1 ++ [row], simPair.2, llmTriple.2.2)

/-- The whole answer loop, started from empty accumulators. -/
def processAnswers (db : SubmitDB) (evalLLM : String → String → String → LLMEval)
    (cand_id interview_id : ℕ) (answer_embeddings : Option (List (ℕ × List ℚ)))
    (answers : List (ℕ × String)) :
    List CandidateAnswer × List CosValue × List ℚ :=
  answers.foldl (processAnswer db evalLLM cand_id interview_id answer_embeddings)
    ([], [], [])

/-- `save_candidate_answers` (services/candidate_service.py).  Returns the
session state after the call together with the result dict; note that the
final interview update re-queries by `status == "Pending"` and
`candidate_id` only (lines 164-168), not by `interview_id`. -/
def save_candidate_answers (db : SubmitDB)
    (evalLLM : String → String → String → LLMEval) (commitErr : Option String)
    (candidate_id interview_id : ℕ) (answers : List (ℕ × String))
    (answer_embeddings : Option (List (ℕ × List ℚ))) : SubmitDB × SaveResult :=
  match db.interviews.find?
      (fun i => i.id == interview_id && i.candidate_id == candidate_id) with
  | none =>
    (db, { saved_count := 0, similarities := none,
           error := some ("Interview ID " ++ toString interview_id ++
             " not found for this candidate.") })
  | some itv =>
    if itv.status == "Completed" then
      (db, { saved_count := 0, similarities := none,
             error := some "This interview has already been completed." })
    else
      let acc := processAnswers db evalLLM candidate_id interview_id
        answer_embeddings answers
      let interviews2 : List Interview :=
        match db.interviews.find?
            (fun i => i.status == "Pending" && i.candidate_id == candidate_id) with
        | none => db.interviews
        | some itv2 =>
          db.interviews.map (fun i =>
            if i.id == itv2.id then
              { i with
                status := "Completed"
                evaluation_status := "LLM Evaluvation Completed"
                final_score :=
                  if acc.2.2.isEmpty then i.final_score
                  else some (acc.2.2.sum / acc.2.2.length) }
            else i)
      match commitErr with
      | some msg =>
        (db, { saved_count := 0, similarities := none, error := some msg })
      | none =>
        ({ db with
            interviews := interviews2
            candidate_answers := db.candidate_answers ++ acc.1 },
         { saved_count := acc.1.length, similarities := some acc.2.1,
           error := none })

/-- The llm_score a single `(question_id, answer_text)` pair obtains in the
loop: present exactly when the question exists, the judging guard holds and
the judge returns a dict with a non-`None` score. -/
def obtainedScore (db : SubmitDB) (evalLLM : String → String → String → LLMEval)
    (qa : ℕ × String) : Option ℚ :=
  match db.questions.find? (fun q => q.id == qa.1) with
  | none => none
  | some question =>
    if truthyOptStr question.model_answer && truthyStr qa.2 then
      match evalLLM question.question_text (question.model_answer.getD "") qa.2 with
      | LLMEval.result (some sc) _ => some sc
      | _ => none
    else none

lemma processAnswer_scores (db : SubmitDB)
    (evalLLM : String → String → String → LLMEval) (cand_id interview_id : ℕ)
    (answer_embeddings : Option (List (ℕ × List ℚ)))
    (acc : List CandidateAnswer × List CosValue × List ℚ) (qa : ℕ × String) :
    (processAnswer db evalLLM cand_id interview_id answer_embeddings acc qa).2.2
      = acc.2.2 ++ (obtainedScore db evalLLM qa).toList := by
  unfold processAnswer obtainedScore
  cases hq : db.questions.find? (fun q => q.id == qa.1) with
  | none => simp
  | some question =>
    dsimp only
    by_cases hcond : (truthyOptStr question.model_answer && truthyStr qa.2) = true
    · rw [if_pos hcond, if_pos hcond]
      cases hev : evalLLM question.question_text (question.model_answer.getD "") qa.2 with
      | raises => simp
      | noResult => simp
      | result s fb => cases s <;> simp
    · rw [if_neg hcond, if_neg hcond]
      simp

lemma processAnswer_saved_length (db : SubmitDB)
    (evalLLM : String → String → String → LLMEval) (cand_id interview_id : ℕ)
    (answer_embeddings : Option (List (ℕ × List ℚ)))
    (acc : List CandidateAnswer × List CosValue × List ℚ) (qa : ℕ × String) :
    (processAnswer db evalLLM cand_id interview_id answer_embeddings acc qa).1.length
      = acc.1.length +
        (if (db.questions.find? (fun q => q.id == qa.1)).isSome then 1 else 0) := by
  unfold processAnswer
  cases hq : db.questions.find? (fun q => q.id == qa.1) with
  | none => simp
  | some question => simp

lemma foldl_processAnswer_scores (db : SubmitDB)
    (evalLLM : String → String → String → LLMEval) (cand_id interview_id : ℕ)
    (answer_embeddings : Option (List (ℕ × List ℚ)))
    (answers : List (ℕ × String)) :
    ∀ acc : List CandidateAnswer × List CosValue × List ℚ,
      (answers.foldl
        (processAnswer db evalLLM cand_id interview_id answer_embeddings) acc).2.2
        = acc.2.2 ++ answers.filterMap (obtainedScore db evalLLM) := by
  induction answers with
  | nil => intro acc; simp
  | cons qa rest ih =>
    intro acc
    rw [List.foldl_cons, ih, processAnswer_scores]
    cases hsc : obtainedScore db evalLLM qa <;>
      simp [List.filterMap_cons, hsc]

lemma processAnswers_scores (db : SubmitDB)
    (evalLLM : String → String → String → LLMEval) (cand_id interview_id : ℕ)
    (answer_embeddings : Option (List (ℕ × List ℚ)))
    (answers : List (ℕ × String)) :
    (processAnswers db evalLLM cand_id interview_id answer_embeddings answers).2.2
      = answers.filterMap (obtainedScore db evalLLM) := by
  unfold processAnswers
  rw [foldl_processAnswer_scores]
  simp

lemma foldl_processAnswer_saved_length (db : SubmitDB)
    (evalLLM : String → String → String → LLMEval) (cand_id interview_id : ℕ)
    (answer_embeddings : Option (List (ℕ × List ℚ)))
    (answers : List (ℕ × String)) :
    ∀ acc : List CandidateAnswer × List CosValue × List ℚ,
      (answers.foldl
        (processAnswer db evalLLM cand_id interview_id answer_embeddings) acc).1.length
        = acc.1.length +
          (answers.filter
            (fun qa => (db.questions.find? (fun q => q.id == qa.1)).isSome)).length := by
  induction answers with
  | nil => intro acc; simp
  | cons qa rest ih =>
    intro acc
    rw [List.foldl_cons, ih, processAnswer_saved_length]
    by_cases hq : (db.questions.find? (fun q => q.id == qa.1)).isSome = true
    · simp [List.filter_cons, hq]
      omega
    · simp [List.filter_cons, hq]

lemma processAnswers_saved_length (db : SubmitDB)
    (evalLLM : String → String → String → LLMEval) (cand_id interview_id : ℕ)
    (answer_embeddings : Option (List (ℕ × List ℚ)))
    (answers : List (ℕ × String)) :
    (processAnswers db evalLLM cand_id interview_id answer_embeddings answers).1.length
      = (answers.filter
          (fun qa => (db.questions.find? (fun q => q.id == qa.1)).isSome)).length := by
  unfold processAnswers
  rw [foldl_processAnswer_saved_length]
  simp

end Hireflow

namespace Hireflow

/-- C1: if the interview identified by `(interview_id, candidate_id)` is
already `"Completed"`, `save_candidate_answers` returns the
already-completed error with `saved_count = 0` for any answers map, and
the session state — stored `CandidateAnswer` rows, every interview's
status, `evaluation_status` and `final_score` — is exactly unchanged. -/
theorem submit_already_completed (db : SubmitDB)
    (evalLLM : String → String → String → LLMEval) (commitErr : Option String)
    (candidate_id interview_id : ℕ) (answers : List (ℕ × String))
    (answer_embeddings : Option (List (ℕ × List ℚ))) (itv : Interview)
    (hfind : db.interviews.find?
      (fun i => i.id == interview_id && i.candidate_id == candidate_id) = some itv)
    (hc : itv.status = "Completed") :
    save_candidate_answers db evalLLM commitErr candidate_id interview_id
        answers answer_embeddings
      = (db, { saved_count := 0, similarities := none,
               error := some "This interview has already been completed." }) := by
  unfold save_candidate_answers
  rw [hfind]
  simp [hc]

/-- A completed interview used to instantiate `submit_already_completed`. -/
def itvC1 : Interview :=
  { id := 1, candidate_id := 2, job_id := 3, status := "Completed",
    evaluation_status := "LLM Evaluvation Completed", final_score := some 70 }

/-- Session state after a first successful submission: one completed
interview with one stored answer row. -/
def dbC1 : SubmitDB :=
  { interviews := [itvC1]
    questions := [⟨4, 1, "What is a tuple?", some "An immutable sequence.", none⟩]
    candidate_answers := [⟨2, 4, 1, "first answer", none, none, some 70, none⟩] }

/-- Concrete instance of `submit_already_completed`: re-submitting a
completed interview leaves the stored row and scores untouched. -/
theorem submit_already_completed_witness :
    (dbC1.interviews.find? (fun i => i.id == 1 && i.candidate_id == 2)
        = some itvC1 ∧ itvC1.status = "Completed") ∧
      save_candidate_answers dbC1 (fun _ _ _ => LLMEval.noResult) none 2 1
          [(4, "retry answer")] none
        = (dbC1, { saved_count := 0, similarities := none,
                   error := some "This interview has already been completed." }) :=
  ⟨⟨by rfl, by rfl⟩,
    submit_already_completed dbC1 (fun _ _ _ => LLMEval.noResult) none 2 1
      [(4, "retry answer")] none itvC1 (by rfl) (by rfl)⟩

/-- C2: whenever the database interaction raises (modelled at the commit
boundary), `save_candidate_answers` rolls back — the returned session
state is exactly the input state, so no `CandidateAnswer` row of this
submission persists and a `Pending` interview stays `Pending` — and the
error is returned as data with `saved_count = 0`; the function is total,
so nothing escapes the API boundary. -/
theorem submit_rollback_on_exception (db : SubmitDB)
    (evalLLM : String → String → String → LLMEval) (msg : String)
    (candidate_id interview_id : ℕ) (answers : List (ℕ × String))
    (answer_embeddings : Option (List (ℕ × List ℚ))) :
    (save_candidate_answers db evalLLM (some msg) candidate_id interview_id
        answers answer_embeddings).1 = db ∧
    (save_candidate_answers db evalLLM (some msg) candidate_id interview_id
        answers answer_embeddings).2.saved_count = 0 ∧
    (save_candidate_answers db evalLLM (some msg) candidate_id interview_id
        answers answer_embeddings).2.error.isSome = true := by
  unfold save_candidate_answers
  cases hfind : db.interviews.find?
      (fun i => i.id == interview_id && i.candidate_id == candidate_id) with
  | none => simp
  | some itv =>
    by_cases hc : (itv.status == "Completed") = true <;> simp [hc]

/-- C3 (amended): for a submission against a non-completed interview with
no commit failure, every answer whose question exists is reported as
saved, and the arithmetic mean of exactly the llm_scores obtained in this
submission (answers that obtained none are excluded from the mean but
still counted as saved) is written as `final_score` — to the candidate's
first `Pending` interview found by the re-query of lines 164-168 (`itv2`),
which is the submitted interview only when that is the candidate's first
`Pending` one; if no score was obtained, `final_score` keeps its previous
(unset) value. -/
theorem submit_final_score_is_mean (db : SubmitDB)
    (evalLLM : String → String → String → LLMEval)
    (candidate_id interview_id : ℕ) (answers : List (ℕ × String))
    (answer_embeddings : Option (List (ℕ × List ℚ))) (itv itv2 : Interview)
    (hfind : db.interviews.find?
      (fun i => i.id == interview_id && i.candidate_id == candidate_id) = some itv)
    (hnc : itv.status ≠ "Completed")
    (hpend : db.interviews.find?
      (fun i => i.status == "Pending" && i.candidate_id == candidate_id) = some itv2) :
    (save_candidate_answers db evalLLM none candidate_id interview_id
        answers answer_embeddings).2.error = none ∧
    (save_candidate_answers db evalLLM none candidate_id interview_id
        answers answer_embeddings).2.saved_count
      = (answers.filter
          (fun qa => (db.questions.find? (fun q => q.id == qa.1)).isSome)).length ∧
    (∃ i2 ∈ (save_candidate_answers db evalLLM none candidate_id interview_id
        answers answer_embeddings).1.interviews,
      i2.id = itv2.id ∧ i2.status = "Completed" ∧
      i2.final_score =
        (if (answers.filterMap (obtainedScore db evalLLM)).isEmpty then
          itv2.final_score
         else some ((answers.filterMap (obtainedScore db evalLLM)).sum /
           (answers.filterMap (obtainedScore db evalLLM)).length))) := by
  have hncb : (itv.status == "Completed") = false := by
    simpa using hnc
  have hmem : itv2 ∈ db.interviews := List.mem_of_find?_eq_some hpend
  unfold save_candidate_answers
  simp only [hfind, hncb, Bool.false_eq_true, if_false, hpend]
  refine ⟨by simp, ?_, ?_⟩
  · simpa using processAnswers_saved_length db evalLLM candidate_id interview_id
      answer_embeddings answers
  · refine ⟨_, List.mem_map_of_mem _ hmem, ?_, ?_, ?_⟩
    · simp
    · simp
    · simp only [beq_self_eq_true, if_true, if_pos]
      rw [processAnswers_scores]

/-- A pending interview used to instantiate `submit_final_score_is_mean`. -/
def itvC3 : Interview :=
  { id := 5, candidate_id := 9, job_id := 2, status := "Pending",
    evaluation_status := "Not Evaluated", final_score := none }

/-- Session with one pending interview and three questions. -/
def dbC3 : SubmitDB :=
  { interviews := [itvC3]
    questions := [⟨11, 5, "q one", some "m one", none⟩,
      ⟨12, 5, "q two", some "m two", none⟩,
      ⟨13, 5, "q three", some "m three", none⟩]
    candidate_answers := [] }

/-- Judge stub: scores 80 and 60 for the first two questions, raises on
the third. -/
def evalC3 : String → String → String → LLMEval := fun qt _ _ =>
  if qt == "q one" then LLMEval.result (some 80) (some "good")
  else if qt == "q two" then LLMEval.result (some 60) (some "ok")
  else LLMEval.raises

/-- Concrete instance of `submit_final_score_is_mean`: three answers, two
scored 80 and 60, the third failing — `saved_count = 3` and
`final_score = 70`. -/
theorem submit_final_score_is_mean_witness :
    (dbC3.interviews.find? (fun i => i.id == 5 && i.candidate_id == 9)
        = some itvC3 ∧
      itvC3.status ≠ "Completed" ∧
      dbC3.interviews.find? (fun i => i.status == "Pending" && i.candidate_id == 9)
        = some itvC3) ∧
    ((save_candidate_answers dbC3 evalC3 none 9 5
        [(11, "a1"), (12, "a2"), (13, "a3")] none).2.saved_count = 3 ∧
      ∃ i2 ∈ (save_candidate_answers dbC3 evalC3 none 9 5
          [(11, "a1"), (12, "a2"), (13, "a3")] none).1.interviews,
        i2.id = 5 ∧ i2.status = "Completed" ∧ i2.final_score = some 70) := by
  have h := submit_final_score_is_mean dbC3 evalC3 9 5
    [(11, "a1"), (12, "a2"), (13, "a3")] none itvC3 itvC3
    (by rfl) (by decide) (by rfl)
  obtain ⟨-, hs, i2, hmem2, hid, hst, hfs⟩ := h
  refine ⟨⟨by rfl, by decide, by rfl⟩, ?_, i2, hmem2, ?_, hst, ?_⟩
  · rw [hs]; decide
  · rw [hid]; rfl
  · rw [hfs]
    have hlist : List.filterMap (obtainedScore dbC3 evalC3)
        [(11, "a1"), (12, "a2"), (13, "a3")] = [80, 60] := by rfl
    rw [hlist]
    norm_num [List.sum_cons, List.sum_nil]

/-- Session where candidate 9 has two pending interviews (ids 1 and 5)
and the questions belong to the submitted interview 5. -/
def dbC3cx : SubmitDB :=
  { interviews := [⟨1, 9, 2, "Pending", "Not Evaluated", none⟩,
      ⟨5, 9, 2, "Pending", "Not Evaluated", none⟩]
    questions := [⟨11, 5, "q one", some "m one", none⟩,
      ⟨12, 5, "q two", some "m two", none⟩]
    candidate_answers := [] }

/-- C3 counterexample: a submission for interview 5 of candidate 9 whose
answers obtain llm_scores 80 and 60 — yet the submitted interview 5 ends
unchanged, `final_score` not set (still `Pending`), because the re-query
of lines 164-168 writes status, evaluation_status and the mean to the
candidate's first `Pending` interview 1 instead; so the claim that *the*
interview identified by the submission receives the mean is false. -/
theorem submit_mean_misses_submitted_interview :
    List.filterMap (obtainedScore dbC3cx evalC3) [(11, "a1"), (12, "a2")]
      = [80, 60] ∧
    (save_candidate_answers dbC3cx evalC3 none 9 5
        [(11, "a1"), (12, "a2")] none).2.saved_count = 2 ∧
    (save_candidate_answers dbC3cx evalC3 none 9 5
        [(11, "a1"), (12, "a2")] none).1.interviews.find?
        (fun i => i.id == 5)
      = some ⟨5, 9, 2, "Pending", "Not Evaluated", none⟩ ∧
    ((save_candidate_answers dbC3cx evalC3 none 9 5
        [(11, "a1"), (12, "a2")] none).1.interviews.find?
        (fun i => i.id == 1)).map (fun i => (i.status, i.final_score.isSome))
      = some ("Completed", true) :=
  ⟨rfl, rfl, rfl, rfl⟩

/-- Session with a single pending interview and no questions, the failing
input for the empty-submission claim. -/
def dbC4 : SubmitDB :=
  { interviews := [⟨1, 1, 1, "Pending", "Not Evaluated", none⟩]
    questions := []
    candidate_answers := [] }

/-- C4 evaluation at the failing input: submitting an empty answers map
for a pending interview returns `saved_count = 0`, but the interview does
NOT remain `"Pending"` — lines 164-181 of candidate_service.py still mark
it `"Completed"`, contradicting the claimed absence of a state
transition. -/
theorem empty_answers_still_completes :
    (save_candidate_answers dbC4 (fun _ _ _ => LLMEval.noResult) none 1 1
        [] none).2.saved_count = 0 ∧
    (save_candidate_answers dbC4 (fun _ _ _ => LLMEval.noResult) none 1 1
        [] none).1.interviews
      = [⟨1, 1, 1, "Completed", "LLM Evaluvation Completed", none⟩] := by
  decide

/-- Session where candidate 7 has two pending interviews (ids 1 and 2)
and the submission targets interview 2. -/
def dbC5 : SubmitDB :=
  { interviews := [⟨1, 7, 1, "Pending", "Not Evaluated", none⟩,
      ⟨2, 7, 1, "Pending", "Not Evaluated", none⟩]
    questions := [⟨10, 2, "only question", none, none⟩]
    candidate_answers := [] }

/-- C5 evaluation at the failing input: the answer row is saved for
interview 2, yet the status update re-queries only by
`status == "Pending"` and `candidate_id` (lines 164-168), so interview 1
— the candidate's first pending interview — is marked `"Completed"` while
the submitted interview 2 stays `"Pending"`. -/
theorem completes_wrong_interview :
    (save_candidate_answers dbC5 (fun _ _ _ => LLMEval.noResult) none 7 2
        [(10, "my answer")] none).2.saved_count = 1 ∧
    (save_candidate_answers dbC5 (fun _ _ _ => LLMEval.noResult) none 7 2
        [(10, "my answer")] none).1.interviews
      = [⟨1, 7, 1, "Completed", "LLM Evaluvation Completed", none⟩,
         ⟨2, 7, 1, "Pending", "Not Evaluated", none⟩] := by
  decide

/-! ## Question generation (services/openai_service.py, lines 98-318)

The external chat completion is an oracle indexed by the number of
upstream calls already performed.  The raw text of a response is
represented by its `_safe_parse_json` outcome: `content none` is a
response whose text cannot be parsed as JSON, `content (some j)` one that
parses to the JSON value `j`.  A response without choices raises inside
the `try` (first call) or yields an empty text that fails to parse
(fallback call). -/

/-- JSON values, as produced by `json.loads`. -/
inductive Json : Type
  | null : Json
  | bool (b : Bool) : Json
  | num (q : ℚ) : Json
  | str (s : String) : Json
  | arr (xs : List Json) : Json
  | obj (kvs : List (String × Json)) : Json

/-- Python truthiness of a JSON-decoded value. -/
def jsonTruthy : Json → Bool
  | Json.null => false
  | Json.bool b => b
  | Json.num q => !(q == 0)
  | Json.str s => !(s == "")
  | Json.arr xs => !xs.isEmpty
  | Json.obj kvs => !kvs.isEmpty

/-- `dict.get(k)`: the first value stored under `k`, if any. -/
def jsonGet (kvs : List (String × Json)) (k : String) : Option Json :=
  (kvs.find? (fun p => p.1 == k)).map (fun p => p.2)

/-- Python `a or b` where `a` is a `dict.get` result: the value if present
and truthy, otherwise the fallback. -/
def pyOrJson (a : Option Json) (b : Json) : Json :=
  match a with
  | some v => if jsonTruthy v then v else b
  | none => b

/-- `str(value)` for the scalar JSON values the generator actually emits;
the Python repr of nested containers is immaterial to every theorem below
and is abbreviated. -/
def pyStr : Json → String
  | Json.null => "None"
  | Json.bool true => "True"
  | Json.bool false => "False"
  | Json.num q => toString q
  | Json.str s => s
  | Json.arr _ => "<list repr>"
  | Json.obj _ => "<dict repr>"

/-- One normalized generation item: `{'question','answer','keywords'}`. -/
structure GenItem : Type where
  question : String
  answer : String
  keywords : List String
deriving DecidableEq, Repr

/-- The `kws` normalization: a comma-separated string is split, trimmed
and filtered; an array is mapped through `str(k).strip()`; a dict
iterates over its keys; iterating a number or boolean raises `TypeError`,
which the enclosing attempt catches (`null` and every falsy value were
already replaced by `[]` by the `or []`). -/
def normalizeKeywords : Json → Except String (List String)
  | Json.str s =>
    Except.ok (((pySplit s ',').map pyStrip).filter (fun k => !(k == "")))
  | Json.arr xs => Except.ok (xs.map (fun k => pyStrip (pyStr k)))
  | Json.obj kvs => Except.ok (kvs.map (fun p => pyStrip p.1))
  | Json.null => Except.error "TypeError: NoneType object is not iterable"
  | Json.num _ => Except.error "TypeError: numeric object is not iterable"
  | Json.bool _ => Except.error "TypeError: bool object is not iterable"

/-- The per-item normalization loop (lines 274-293): non-dict items are
skipped; the first keywords `TypeError` aborts the attempt. -/
def normalizeItems : List Json → Except String (List GenItem)
  | [] => Except.ok []
  | it :: rest =>
    match it with
    | Json.obj kvs =>
      match normalizeKeywords (pyOrJson (jsonGet kvs "keywords") (Json.arr [])) with
      | Except.error e => Except.error e
      | Except.ok kwlist =>
        match normalizeItems rest with
        | Except.error e => Except.error e
        | Except.ok items =>
          Except.ok
            ({ question :=
                pyStrip (pyStr (pyOrJson (jsonGet kvs "prompt")
                  (pyOrJson (jsonGet kvs "question") (Json.str ""))))
               answer :=
                pyStrip (pyStr (pyOrJson (jsonGet kvs "reference_answer")
                  (pyOrJson (jsonGet kvs "answer") (Json.str ""))))
               keywords := kwlist } :: items)
    | _ => normalizeItems rest

/-- Session state read by the bad-question exclusion query. -/
structure GenDB : Type where
  interviews : List Interview
  questions : List Question
  feedback : List QuestionFeedback
deriving Repr

/-- Membership of a (lowered, trimmed) text in `bad_question_texts`: some
question with that text has `is_good == False` feedback and belongs (via
its interview) to the stated job (lines 294-301). -/
def isBadQuestionText (db : GenDB) (job_id : ℕ) (t : String) : Bool :=
  db.questions.any (fun q =>
    (pyStrip (pyLower q.question_text) == t) &&
    db.feedback.any (fun fb => fb.question_id == q.id && fb.is_good == false) &&
    db.interviews.any (fun i => i.id == q.interview_id && i.job_id == job_id))

/-- Outcome of one upstream chat completion call. -/
inductive GenCallResult : Type
  | raises : GenCallResult
  | noChoices : GenCallResult
  | content (parsed : Option Json) : GenCallResult

/-- Shape validation and bad-question post-filter applied to a parsed
response (lines 273-308). -/
def validateParsed (db : GenDB) (job_id : ℕ) (parsed : Json) :
    Except String (List GenItem) :=
  match parsed with
  | Json.arr items =>
    match normalizeItems items with
    | Except.error e => Except.error e
    | Except.ok its =>
      Except.ok (its.filter
        (fun it => !(isBadQuestionText db job_id (pyStrip (pyLower it.question)))))
  | _ => Except.error "Parsed output is not a JSON list."

/-- One iteration of the `while` loop body (the `try` block): first call,
parse, at most one stricter fallback call, validation.  Returns the new
upstream-call count and either the items or the message of the exception
the `except` handler catches. -/
def genAttempt (db : GenDB) (oracle : ℕ → GenCallResult) (job_id calls : ℕ) :
    ℕ × Except String (List GenItem) :=
  match oracle calls with
  | GenCallResult.raises => (calls + 1, Except.error "chat completion call raised")
  | GenCallResult.noChoices =>
    (calls + 1, Except.error "OpenAI response did not contain any choices.")
  | GenCallResult.content parsed =>
    match parsed with
    | some j => (calls + 1, validateParsed db job_id j)
    | none =>
      match oracle (calls + 1) with
      | GenCallResult.raises =>
        (calls + 2, Except.error "chat completion call raised")
      | GenCallResult.noChoices =>
        (calls + 2, Except.error "Failed to parse JSON from OpenAI output.")
      | GenCallResult.content parsed2 =>
        match parsed2 with
        | none => (calls + 2, Except.error "Failed to parse JSON from OpenAI output.")
        | some j => (calls + 2, validateParsed db job_id j)

/-- The `while attempt <= max_retries` loop; the fuel argument equals the
number of iterations the condition still allows, so the fuel-exhausted
case is the unreachable `raise` after the loop (line 318). -/
def genLoop (db : GenDB) (oracle : ℕ → GenCallResult) (job_id max_retries : ℕ) :
    ℕ → ℕ → ℕ → ℕ × Except String (List GenItem)
  | 0, _, calls => (calls, Except.error "OpenAI generation failed unexpectedly.")
  | fuel + 1, attempt, calls =>
    match genAttempt db oracle job_id calls with
    | (calls2, Except.ok items) => (calls2, Except.ok items)
    | (calls2, Except.error e) =>
      if attempt + 1 > max_retries then
        (calls2, Except.error ("OpenAI generation failed after " ++
          toString (attempt + 1) ++ " attempts: " ++ e))
      else
        genLoop db oracle job_id max_retries fuel (attempt + 1) calls2

/-- `generate_knowledge_for_tech` (services/openai_service.py, lines
176-318), with the API key configured.  Returns the number of upstream
calls performed together with the result. -/
def generate_knowledge_for_tech (db : GenDB) (oracle : ℕ → GenCallResult)
    (job_id : ℕ) (_n_questions : ℕ := 5) (max_retries : ℕ := 2) :
    ℕ × Except String (List GenItem) :=
  genLoop db oracle job_id max_retries (max_retries + 1) 0 0

lemma validateParsed_ok_no_bad {db : GenDB} {job_id : ℕ} {parsed : Json}
    {lst : List GenItem} (h : validateParsed db job_id parsed = Except.ok lst) :
    ∀ it ∈ lst, isBadQuestionText db job_id (pyStrip (pyLower it.question)) = false := by
  cases parsed with
  | arr items =>
    simp only [validateParsed] at h
    cases hn : normalizeItems items with
    | error e => rw [hn] at h; simp at h
    | ok its =>
      rw [hn] at h
      simp only [Except.ok.injEq] at h
      subst h
      intro it hit
      have hmem := (List.mem_filter.mp hit).2
      simpa using hmem
  | null => simp [validateParsed] at h
  | bool b => simp [validateParsed] at h
  | num q => simp [validateParsed] at h
  | str s => simp [validateParsed] at h
  | obj kvs => simp [validateParsed] at h

lemma genAttempt_ok_no_bad {db : GenDB} {oracle : ℕ → GenCallResult}
    {job_id calls c : ℕ} {lst : List GenItem}
    (h : genAttempt db oracle job_id calls = (c, Except.ok lst)) :
    ∀ it ∈ lst, isBadQuestionText db job_id (pyStrip (pyLower it.question)) = false := by
  unfold genAttempt at h
  cases h0 : oracle calls with
  | raises => rw [h0] at h; simp at h
  | noChoices => rw [h0] at h; simp at h
  | content parsed =>
    rw [h0] at h
    cases parsed with
    | some j =>
      simp only [Prod.mk.injEq] at h
      exact validateParsed_ok_no_bad h.2
    | none =>
      cases h1 : oracle (calls + 1) with
      | raises => rw [h1] at h; simp at h
      | noChoices => rw [h1] at h; simp at h
      | content parsed2 =>
        rw [h1] at h
        cases parsed2 with
        | none => simp at h
        | some j =>
          simp only [Prod.mk.injEq] at h
          exact validateParsed_ok_no_bad h.2

lemma genLoop_ok_no_bad {db : GenDB} {oracle : ℕ → GenCallResult}
    {job_id max_retries : ℕ} :
    ∀ (fuel attempt calls c : ℕ) (lst : List GenItem),
      genLoop db oracle job_id max_retries fuel attempt calls
        = (c, Except.ok lst) →
      ∀ it ∈ lst, isBadQuestionText db job_id (pyStrip (pyLower it.question)) = false := by
  intro fuel
  induction fuel with
  | zero =>
    intro attempt calls c lst h
    simp [genLoop] at h
  | succ fuel ih =>
    intro attempt calls c lst h
    rw [genLoop] at h
    cases hga : genAttempt db oracle job_id calls with
    | mk calls2 r =>
      rw [hga] at h
      cases r with
      | ok items =>
        simp only [Prod.mk.injEq, Except.ok.injEq] at h
        rw [← h.2]
        exact genAttempt_ok_no_bad hga
      | error e =>
        dsimp only at h
        by_cases hb : attempt + 1 > max_retries
        · rw [if_pos hb] at h; simp at h
        · rw [if_neg hb] at h; exact ih _ _ _ _ h

end Hireflow

namespace Hireflow

/-- C7: whenever `generate_knowledge_for_tech` succeeds, no returned item
has question text that matches — case-insensitively, after trimming — a
question previously marked bad (`is_good == False`) for the same job: the
post-parse filter of lines 303-306 removes every such item. -/
theorem generated_items_exclude_bad (db : GenDB) (oracle : ℕ → GenCallResult)
    (job_id n max_retries calls : ℕ) (lst : List GenItem)
    (h : generate_knowledge_for_tech db oracle job_id n max_retries
      = (calls, Except.ok lst)) :
    ∀ it ∈ lst, isBadQuestionText db job_id (pyStrip (pyLower it.question)) = false :=
  genLoop_ok_no_bad _ _ _ _ _ h

/-- Session in which question 31 ("What is Python?") of job 3 carries bad
feedback. -/
def dbC7 : GenDB :=
  { interviews := [⟨21, 9, 3, "Completed", "LLM Evaluvation Completed", none⟩]
    questions := [⟨31, 21, "What is Python?", some "a language", none⟩]
    feedback := [⟨31, false⟩] }

/-- Generator stub returning one item matching the bad question (up to
case) and one fresh item. -/
def oracleC7 : ℕ → GenCallResult := fun _ =>
  GenCallResult.content (some (Json.arr
    [Json.obj [("question", Json.str "what is PYTHON?"),
      ("answer", Json.str "A language."),
      ("keywords", Json.arr [Json.str "python"])],
     Json.obj [("question", Json.str "Explain decorators."),
      ("answer", Json.str "Wrappers."),
      ("keywords", Json.str "python, decorators")]]))

/-- Concrete instance of `generated_items_exclude_bad`: the job-scoped bad
question is filtered out of the successful generation. -/
theorem generated_items_exclude_bad_witness :
    generate_knowledge_for_tech dbC7 oracleC7 3 5 2
      = (1, Except.ok [⟨"Explain decorators.", "Wrappers.",
          ["python", "decorators"]⟩]) ∧
    ∀ it ∈ [(⟨"Explain decorators.", "Wrappers.",
        ["python", "decorators"]⟩ : GenItem)],
      isBadQuestionText dbC7 3 (pyStrip (pyLower it.question)) = false :=
  ⟨by rfl, generated_items_exclude_bad dbC7 oracleC7 3 5 2 1 _ (by rfl)⟩

/-- C6 counterexample: fed a generator whose output never parses,
`generate_knowledge_for_tech` does not fail after the single stricter
retry (2 upstream calls) the claim describes — the outer `while` loop
re-runs the whole attempt with backoff, so 3 attempts and 6 upstream
calls happen before the final parse error is raised. -/
theorem gen_parse_retry_counterexample :
    (generate_knowledge_for_tech ⟨[], [], []⟩
        (fun _ => GenCallResult.content none) 1 5 2).1 = 6 ∧
    (generate_knowledge_for_tech ⟨[], [], []⟩
        (fun _ => GenCallResult.content none) 1 5 2).1 ≠ 2 ∧
    (generate_knowledge_for_tech ⟨[], [], []⟩
        (fun _ => GenCallResult.content none) 1 5 2).2
      = Except.error "OpenAI generation failed after 3 attempts: Failed to parse JSON from OpenAI output." :=
  ⟨rfl, by decide, rfl⟩

/-- C6 (amended): when the first response fails to parse, one stricter
retry is issued within the attempt; if the retry parses as an array the
call returns the normalized, bad-question-filtered items having performed
exactly 2 upstream calls.  If every response fails to parse, the whole
attempt is retried with backoff until `max_retries` is exceeded, so the
call fails with the wrapped parse error after 3 attempts and 6 upstream
calls — never returning an empty list. -/
theorem gen_retry_then_succeed (db : GenDB) (oracle : ℕ → GenCallResult)
    (job_id : ℕ) (js : List Json) (items : List GenItem)
    (h0 : oracle 0 = GenCallResult.content none)
    (h1 : oracle 1 = GenCallResult.content (some (Json.arr js)))
    (hn : normalizeItems js = Except.ok items) :
    generate_knowledge_for_tech db oracle job_id 5 2
      = (2, Except.ok (items.filter
          (fun it => !(isBadQuestionText db job_id (pyStrip (pyLower it.question)))))) ∧
    (∀ oracle2 : ℕ → GenCallResult,
      (∀ k, oracle2 k = GenCallResult.content none) →
      generate_knowledge_for_tech db oracle2 job_id 5 2
        = (6, Except.error "OpenAI generation failed after 3 attempts: Failed to parse JSON from OpenAI output.")) := by
  constructor
  · simp [generate_knowledge_for_tech, genLoop, genAttempt, validateParsed,
      h0, h1, hn]
  · intro oracle2 h
    simp only [generate_knowledge_for_tech, genLoop, genAttempt, h]
    norm_num
    rfl

/-- The raw 5-item array the stub returns on the retry. -/
def jsC6 : List Json :=
  [Json.obj [("question", Json.str "Q1"), ("answer", Json.str "A1"),
     ("keywords", Json.arr [Json.str "k1"])],
   Json.obj [("question", Json.str "Q2"), ("answer", Json.str "A2"),
     ("keywords", Json.arr [Json.str "k2"])],
   Json.obj [("question", Json.str "Q3"), ("answer", Json.str "A3"),
     ("keywords", Json.arr [Json.str "k3"])],
   Json.obj [("question", Json.str "Q4"), ("answer", Json.str "A4"),
     ("keywords", Json.arr [Json.str "k4"])],
   Json.obj [("question", Json.str "Q5"), ("answer", Json.str "A5"),
     ("keywords", Json.arr [Json.str "k5"])]]

/-- The normalized form of `jsC6`. -/
def itemsC6 : List GenItem :=
  [⟨"Q1", "A1", ["k1"]⟩, ⟨"Q2", "A2", ["k2"]⟩, ⟨"Q3", "A3", ["k3"]⟩,
   ⟨"Q4", "A4", ["k4"]⟩, ⟨"Q5", "A5", ["k5"]⟩]

/-- Generator stub: malformed text on the first call, the valid 5-item
array on every later call. -/
def oracleC6 : ℕ → GenCallResult := fun k =>
  if k == 0 then GenCallResult.content none
  else GenCallResult.content (some (Json.arr jsC6))

/-- Concrete instance of `gen_retry_then_succeed`: malformed first
response, valid 5-item array on the retry — the 5 items are returned
after exactly 2 upstream calls. -/
theorem gen_retry_then_succeed_witness :
    (oracleC6 0 = GenCallResult.content none ∧
      oracleC6 1 = GenCallResult.content (some (Json.arr jsC6)) ∧
      normalizeItems jsC6 = Except.ok itemsC6) ∧
    generate_knowledge_for_tech ⟨[], [], []⟩ oracleC6 1 5 2
      = (2, Except.ok itemsC6) := by
  have h := gen_retry_then_succeed ⟨[], [], []⟩ oracleC6 1 jsC6 itemsC6
    (by rfl) (by rfl) (by rfl)
  refine ⟨⟨by rfl, by rfl, by rfl⟩, ?_⟩
  rw [h.1]
  rfl

end Hireflow

namespace Hireflow

/-! ## `get_match_report` (services/openai_service.py, lines 400-476)

The single external call is represented by its outcome: a transport or
HTTP-status exception, a response whose `content` is missing or empty, or
a `content` string with its `json.loads` result.  `setdefault` on a
non-dict JSON value raises `AttributeError`, which the final handler
turns into `None`. -/

/-- Outcome of the one upstream call made by `get_match_report`. -/
inductive MatchCallResult : Type
  | transportError : MatchCallResult
  | noContent : MatchCallResult
  | content (parsed : Option Json) : MatchCallResult

/-- `dict.setdefault(k, v)`: insert `v` under `k` only when `k` is
absent. -/
def jsonSetdefault (kvs : List (String × Json)) (k : String) (v : Json) :
    List (String × Json) :=
  if kvs.any (fun p => p.1 == k) then kvs else kvs ++ [(k, v)]

/-- `get_match_report`, given the outcome of its upstream call: on the
happy path the parsed JSON object is returned with the four report keys
defaulted via `setdefault`; every failure path returns `None`. -/
def get_match_report (call : MatchCallResult) : Option (List (String × Json)) :=
  match call with
  | MatchCallResult.content (some (Json.obj kvs)) =>
    some (jsonSetdefault (jsonSetdefault (jsonSetdefault (jsonSetdefault
      kvs "score" (Json.num 0))
      "summary" (Json.str "No summary provided."))
      "strengths" (Json.arr []))
      "gaps" (Json.arr []))
  | MatchCallResult.content (some _) => none
  | MatchCallResult.content none => none
  | MatchCallResult.noContent => none
  | MatchCallResult.transportError => none

lemma jsonGet_setdefault_of_some {kvs : List (String × Json)} {k : String}
    {v : Json} (h : jsonGet kvs k = some v) (k2 : String) (d : Json) :
    jsonGet (jsonSetdefault kvs k2 d) k = some v := by
  unfold jsonSetdefault
  split
  · exact h
  · unfold jsonGet at *
    rw [List.find?_append]
    cases hf : kvs.find? (fun p => p.1 == k) with
    | none => rw [hf] at h; simp at h
    | some p => rw [hf] at h; simp [hf, h]

lemma jsonGet_setdefault_self {kvs : List (String × Json)} {k : String}
    (h : jsonGet kvs k = none) (d : Json) :
    jsonGet (jsonSetdefault kvs k d) k = some d := by
  have hf : kvs.find? (fun p => p.1 == k) = none := by
    unfold jsonGet at h
    cases hf : kvs.find? (fun p => p.1 == k) with
    | none => rfl
    | some p => rw [hf] at h; simp at h
  have hany : kvs.any (fun p => p.1 == k) = false := by
    rw [List.any_eq_false]
    intro p hp
    have := List.find?_eq_none.mp hf p hp
    simpa using this
  unfold jsonSetdefault jsonGet
  rw [hany]
  simp [List.find?_append, hf]

lemma jsonGet_setdefault_ne {kvs : List (String × Json)} {k k2 : String}
    (h : (k2 == k) = false) (d : Json) :
    jsonGet (jsonSetdefault kvs k2 d) k = jsonGet kvs k := by
  unfold jsonSetdefault
  split
  · rfl
  · unfold jsonGet
    rw [List.find?_append]
    cases hf : kvs.find? (fun p => p.1 == k) with
    | none => simp [hf, List.find?_cons, h]
    | some p => simp [hf]

/-- C9 (amended): whenever the upstream response has parseable
JSON-object content, the returned report contains all four keys, with
defaults applied to any key the response omitted — score defaults to `0`,
summary to `"No summary provided."`, strengths and gaps to `[]` — and
every key the response did provide is returned unchanged. -/
theorem match_report_defaults (kvs : List (String × Json)) :
    ∃ m, get_match_report (MatchCallResult.content (some (Json.obj kvs)))
        = some m ∧
      (jsonGet m "score").isSome = true ∧
      (jsonGet m "summary").isSome = true ∧
      (jsonGet m "strengths").isSome = true ∧
      (jsonGet m "gaps").isSome = true ∧
      (jsonGet kvs "score" = none → jsonGet m "score" = some (Json.num 0)) ∧
      (jsonGet kvs "summary" = none →
        jsonGet m "summary" = some (Json.str "No summary provided.")) ∧
      (jsonGet kvs "strengths" = none →
        jsonGet m "strengths" = some (Json.arr [])) ∧
      (jsonGet kvs "gaps" = none → jsonGet m "gaps" = some (Json.arr [])) ∧
      (∀ k v, jsonGet kvs k = some v → jsonGet m k = some v) := by
  refine ⟨_, rfl, ?_⟩
  have hPres : ∀ k v, jsonGet kvs k = some v →
      jsonGet (jsonSetdefault (jsonSetdefault (jsonSetdefault (jsonSetdefault
        kvs "score" (Json.num 0)) "summary" (Json.str "No summary provided."))
        "strengths" (Json.arr [])) "gaps" (Json.arr [])) k = some v :=
    fun k v h =>
      jsonGet_setdefault_of_some (jsonGet_setdefault_of_some
        (jsonGet_setdefault_of_some (jsonGet_setdefault_of_some h _ _) _ _) _ _) _ _
  have hScore : jsonGet kvs "score" = none →
      jsonGet (jsonSetdefault (jsonSetdefault (jsonSetdefault (jsonSetdefault
        kvs "score" (Json.num 0)) "summary" (Json.str "No summary provided."))
        "strengths" (Json.arr [])) "gaps" (Json.arr [])) "score"
        = some (Json.num 0) :=
    fun h =>
      jsonGet_setdefault_of_some (jsonGet_setdefault_of_some
        (jsonGet_setdefault_of_some (jsonGet_setdefault_self h _) _ _) _ _) _ _
  have hSummary : jsonGet kvs "summary" = none →
      jsonGet (jsonSetdefault (jsonSetdefault (jsonSetdefault (jsonSetdefault
        kvs "score" (Json.num 0)) "summary" (Json.str "No summary provided."))
        "strengths" (Json.arr [])) "gaps" (Json.arr [])) "summary"
        = some (Json.str "No summary provided.") := by
    intro h
    have h1 : jsonGet (jsonSetdefault kvs "score" (Json.num 0)) "summary" = none := by
      rw [jsonGet_setdefault_ne (by rfl)]
      exact h
    exact jsonGet_setdefault_of_some
      (jsonGet_setdefault_of_some (jsonGet_setdefault_self h1 _) _ _) _ _
  have hStrengths : jsonGet kvs "strengths" = none →
      jsonGet (jsonSetdefault (jsonSetdefault (jsonSetdefault (jsonSetdefault
        kvs "score" (Json.num 0)) "summary" (Json.str "No summary provided."))
        "strengths" (Json.arr [])) "gaps" (Json.arr [])) "strengths"
        = some (Json.arr []) := by
    intro h
    have h1 : jsonGet (jsonSetdefault (jsonSetdefault kvs "score" (Json.num 0))
        "summary" (Json.str "No summary provided.")) "strengths" = none := by
      rw [jsonGet_setdefault_ne (by rfl), jsonGet_setdefault_ne (by rfl)]
      exact h
    exact jsonGet_setdefault_of_some (jsonGet_setdefault_self h1 _) _ _
  have hGaps : jsonGet kvs "gaps" = none →
      jsonGet (jsonSetdefault (jsonSetdefault (jsonSetdefault (jsonSetdefault
        kvs "score" (Json.num 0)) "summary" (Json.str "No summary provided."))
        "strengths" (Json.arr [])) "gaps" (Json.arr [])) "gaps"
        = some (Json.arr []) := by
    intro h
    have h1 : jsonGet (jsonSetdefault (jsonSetdefault (jsonSetdefault
        kvs "score" (Json.num 0)) "summary" (Json.str "No summary provided."))
        "strengths" (Json.arr [])) "gaps" = none := by
      rw [jsonGet_setdefault_ne (by rfl), jsonGet_setdefault_ne (by rfl),
        jsonGet_setdefault_ne (by rfl)]
      exact h
    exact jsonGet_setdefault_self h1 _
  refine ⟨?_, ?_, ?_, ?_, hScore, hSummary, hStrengths, hGaps, hPres⟩
  · cases hk : jsonGet kvs "score" with
    | some v => rw [hPres _ _ hk]; rfl
    | none => rw [hScore hk]; rfl
  · cases hk : jsonGet kvs "summary" with
    | some v => rw [hPres _ _ hk]; rfl
    | none => rw [hSummary hk]; rfl
  · cases hk : jsonGet kvs "strengths" with
    | some v => rw [hPres _ _ hk]; rfl
    | none => rw [hStrengths hk]; rfl
  · cases hk : jsonGet kvs "gaps" with
    | some v => rw [hPres _ _ hk]; rfl
    | none => rw [hGaps hk]; rfl

/-- C9 counterexample: a parseable JSON-object response that omits
`summary` is returned with summary `"No summary provided."`, not the
empty string the claim states. -/
theorem match_report_summary_not_empty_default :
    (get_match_report (MatchCallResult.content (some (Json.obj [])))).map
        (fun m => jsonGet m "summary")
      = some (some (Json.str "No summary provided.")) ∧
    Json.str "No summary provided." ≠ Json.str "" := by
  refine ⟨rfl, ?_⟩
  intro hc
  injection hc with hc2
  exact absurd hc2 (by decide)

/-- Concrete instance of `match_report_defaults`: a response carrying only
`score` keeps its score and gets the default summary. -/
theorem match_report_defaults_witness :
    ∃ m, get_match_report
        (MatchCallResult.content (some (Json.obj [("score", Json.num 55)])))
        = some m ∧
      jsonGet m "score" = some (Json.num 55) ∧
      jsonGet m "summary" = some (Json.str "No summary provided.") := by
  obtain ⟨m, hm, -, -, -, -, -, hsum, -, -, hpres⟩ :=
    match_report_defaults [("score", Json.num 55)]
  exact ⟨m, hm, hpres "score" (Json.num 55) (by rfl), hsum (by rfl)⟩

/-! ## `evaluate_interview` (services/evaluation_service.py)

This module targets the legacy schema (`Question.prompt`,
`source_knowledge_id`, `Answer`, `KnowledgeQuestion.question_prompt`), so
its rows are embedded with exactly the fields the function reads.  The
scorer `score_answer_against_references` lives in `services.ai_service`,
an external collaborator of this function, and is passed as an oracle;
the theorems below hold for every scorer. -/

/-- Python `round(x, 2)`: round half to even at two decimal places,
on the integer part. -/
def roundHalfEven (q : ℚ) : ℤ :=
  if q - ⌊q⌋ < 1 / 2 then ⌊q⌋
  else if q - ⌊q⌋ > 1 / 2 then ⌊q⌋ + 1
  else if ⌊q⌋ % 2 = 0 then ⌊q⌋ else ⌊q⌋ + 1

/-- `round(x, 2)` as a rational. -/
def pyRound2 (q : ℚ) : ℚ := (roundHalfEven (q * 100) : ℚ) / 100

lemma roundHalfEven_ge_floor (q : ℚ) : ⌊q⌋ ≤ roundHalfEven q := by
  unfold roundHalfEven
  split
  · exact le_rfl
  · split
    · omega
    · split <;> omega

lemma roundHalfEven_le_ceil (q : ℚ) : roundHalfEven q ≤ ⌈q⌉ := by
  have hfc : ⌊q⌋ ≤ ⌈q⌉ := Int.floor_le_ceil q
  have hlt : (q - ⌊q⌋ < 1 / 2 → False) → ⌊q⌋ + 1 ≤ ⌈q⌉ := by
    intro h
    have hpos : (⌊q⌋ : ℚ) < q := by
      have := Int.floor_le q
      by_contra hc
      push_neg at hc
      have : (⌊q⌋ : ℚ) = q := le_antisymm (Int.floor_le q) hc
      exact h (by rw [← this]; norm_num)
    have := Int.lt_ceil.mpr hpos
    omega
  unfold roundHalfEven
  split
  · exact hfc
  · split
    · rename_i h1 h2
      exact hlt (fun hc => h1 hc)
    · split
      · exact hfc
      · rename_i h1 h2 h3
        exact hlt (fun hc => h1 hc)

lemma pyRound2_bounds {x : ℚ} (h1 : 1 ≤ x) (h2 : x ≤ 10) :
    1 ≤ pyRound2 x ∧ pyRound2 x ≤ 10 := by
  have h100 : (100 : ℤ) ≤ ⌊x * 100⌋ := by
    rw [Int.le_floor]
    push_cast
    linarith
  have h1000 : ⌈x * 100⌉ ≤ 1000 := by
    rw [Int.ceil_le]
    push_cast
    linarith
  have hge := roundHalfEven_ge_floor (x * 100)
  have hle := roundHalfEven_le_ceil (x * 100)
  have hr1 : (100 : ℤ) ≤ roundHalfEven (x * 100) := by omega
  have hr2 : roundHalfEven (x * 100) ≤ 1000 := by omega
  unfold pyRound2
  constructor
  · rw [le_div_iff₀ (by norm_num : (0 : ℚ) < 100)]
    have hc : ((100 : ℤ) : ℚ) ≤ (roundHalfEven (x * 100) : ℚ) := by
      exact_mod_cast hr1
    push_cast at hc ⊢
    linarith
  · rw [div_le_iff₀ (by norm_num : (0 : ℚ) < 100)]
    have hc : ((roundHalfEven (x * 100) : ℤ) : ℚ) ≤ ((1000 : ℤ) : ℚ) := by
      exact_mod_cast hr2
    push_cast at hc ⊢
    linarith

/-- Truthiness of a nullable integer id: `None` and `0` are falsy. -/
def truthyOptNat : Option ℕ → Bool
  | none => false
  | some k => !(k == 0)

/-- Character-list prefix test, structural. -/
def startsChars : List Char → List Char → Bool
  | [], _ => true
  | _ :: _, [] => false
  | a :: as, b :: bs => a == b && startsChars as bs

/-- Character-list substring test, structural. -/
def containsChars (pat : List Char) : List Char → Bool
  | [] => pat.isEmpty
  | c :: rest => startsChars pat (c :: rest) || containsChars pat rest

/-- SQL `LIKE '%pat%'` as executed by SQLite: ASCII case-insensitive
substring containment. -/
def sqlLikeContains (hay pat : String) : Bool :=
  containsChars (pyLower pat).data (pyLower hay).data

/-- Row of the legacy `questions` table as read by evaluation_service. -/
structure EvalQuestion : Type where
  id : ℕ
  interview_id : ℕ
  prompt : String
  source_knowledge_id : Option ℕ
deriving DecidableEq, Repr

/-- Row of the `answers` table (models/answer.py). -/
structure EvalAnswer : Type where
  id : ℕ
  question_id : ℕ
  answer_text : Option String
  ai_score : Option ℚ
  validated : ℕ
deriving DecidableEq, Repr

/-- Row of the legacy `knowledge_questions` table as read by
evaluation_service. -/
structure EvalKnowledge : Type where
  id : ℕ
  question_prompt : String
  reference_answer : Option String
  keywords : Option String
deriving DecidableEq, Repr

/-- The session state visible to `evaluate_interview`. -/
structure EvalDB : Type where
  interviews : List Interview
  questions : List EvalQuestion
  answers : List EvalAnswer
  knowledge : List EvalKnowledge
deriving Repr

/-- The summary dict returned by `evaluate_interview`; the failure dicts
carry no score keys (`none`), `details` lists `(question_id, best_score)`
pairs. -/
structure EvalSummary : Type where
  ok : Bool
  message : String
  overall_raw_score : Option ℚ
  final_score : Option ℚ
  details : List (ℕ × ℚ)
deriving Repr

/-- Reference resolution for one question (evaluation_service lines
42-67): lookup by `source_knowledge_id` when truthy, else substring match
of the first 60 prompt characters; keyword strings are comma-split. -/
def refListFor (db : EvalDB) (q : EvalQuestion) :
    List (String × Option (List String)) :=
  let k :=
    if truthyOptNat q.source_knowledge_id then
      db.knowledge.filter (fun r => r.id == q.source_knowledge_id.getD 0)
    else []
  let refs :=
    if k.isEmpty then
      db.knowledge.filter (fun r =>
        sqlLikeContains r.question_prompt ⟨q.prompt.data.take 60⟩)
    else k
  refs.map (fun r =>
    (r.reference_answer.getD "",
     match r.keywords with
     | some s =>
       if s == "" then none
       else some (((pySplit s ',').map pyStrip).filter (fun x => !(x == "")))
     | none => none))

/-- The per-answer scoring loop of one question (lines 70-90): each
answer gets `ai_score` and `validated` (threshold 60.0), and the best
score (starting from 0.0) is tracked. -/
def scoreAnswers (scorer : String → List (String × Option (List String)) → ℚ)
    (ref_list : List (String × Option (List String)))
    (answers : List EvalAnswer) : List EvalAnswer × ℚ :=
  answers.foldl (fun acc a =>
    let score := scorer (a.answer_text.getD "") ref_list
    (acc.1 ++ [{ a with
        ai_score := some score
        validated := if score ≥ 60 then 1 else 0 }],
     if score > acc.2 then score else acc.2)) ([], 0)

/-- `evaluate_interview` (services/evaluation_service.py).  The scorer
`score_answer_against_references` is the oracle `scorer`. -/
def evaluate_interview (db : EvalDB)
    (scorer : String → List (String × Option (List String)) → ℚ)
    (interview_id : ℕ) : EvalDB × EvalSummary :=
  match db.interviews.find? (fun i => i.id == interview_id) with
  | none => (db, ⟨false, "Interview not found.", none, none, []⟩)
  | some interview =>
    let questions := db.questions.filter (fun q => q.interview_id == interview_id)
    if questions.isEmpty then
      (db, ⟨false, "No questions for interview.", none, none, []⟩)
    else
      let res := questions.foldl
        (fun (acc : List EvalAnswer × List (ℕ × ℚ)) q =>
          let scored := scoreAnswers scorer (refListFor db q)
            (db.answers.filter (fun a => a.question_id == q.id))
          (acc.1 ++ scored.1, acc.2 ++ [(q.id, scored.2)])) ([], [])
      let best_scores := res.2.map (fun p => p.2)
      let overall_raw :=
        if best_scores.isEmpty then 0 else best_scores.sum / best_scores.length
      let final_score := pyRound2 (max 1 (min 10 (overall_raw / 10)))
      ({ db with
          answers := db.answers.map (fun a =>
            match res.1.find? (fun u => u.id == a.id) with
            | some u => u
            | none => a)
          interviews := db.interviews.map (fun i =>
            if i.id == interview.id then
              { i with
                evaluation_status := "Evaluated"
                final_score := some final_score }
            else i) },
       ⟨true, "Evaluation completed.", some overall_raw, some final_score, res.2⟩)

end Hireflow

namespace Hireflow

/-- C10: for every interview with at least one question, the batch
re-evaluation path writes
`final_score = round(max(1.0, min(10.0, overall_raw / 10.0)), 2)` — the
clamped 1-10 normalization of the 0-100 per-question best-score average,
not the 0-100 mean itself — so the stored score lies in `[1, 10]` for
every scorer, in particular at least `1.0` when every answer scores 0. -/
theorem evaluate_interview_final_score_clamped (db : EvalDB)
    (scorer : String → List (String × Option (List String)) → ℚ)
    (interview_id : ℕ) (itv : Interview)
    (hfind : db.interviews.find? (fun i => i.id == interview_id) = some itv)
    (hq : (db.questions.filter
      (fun q => q.interview_id == interview_id)).isEmpty = false) :
    ∃ raw f,
      (evaluate_interview db scorer interview_id).2.overall_raw_score = some raw ∧
      (evaluate_interview db scorer interview_id).2.final_score = some f ∧
      f = pyRound2 (max 1 (min 10 (raw / 10))) ∧
      1 ≤ f ∧ f ≤ 10 ∧
      ∃ i2 ∈ (evaluate_interview db scorer interview_id).1.interviews,
        i2.id = itv.id ∧ i2.final_score = some f ∧
        i2.evaluation_status = "Evaluated" := by
  have hmem : itv ∈ db.interviews := List.mem_of_find?_eq_some hfind
  have hclamp : ∀ raw : ℚ, 1 ≤ pyRound2 (max 1 (min 10 (raw / 10))) ∧
      pyRound2 (max 1 (min 10 (raw / 10))) ≤ 10 := fun raw =>
    pyRound2_bounds (le_max_left 1 (min 10 (raw / 10)))
      (max_le (by norm_num) (min_le_left 10 (raw / 10)))
  unfold evaluate_interview
  simp only [hfind, hq, Bool.false_eq_true, if_false]
  refine ⟨_, _, rfl, rfl, rfl, (hclamp _).1, (hclamp _).2, ?_⟩
  refine ⟨_, List.mem_map_of_mem _ hmem, ?_, ?_, ?_⟩
  · simp
  · simp
  · simp

/-- Interview, legacy question and answer used to instantiate
`evaluate_interview_final_score_clamped` with an all-zero scorer. -/
def dbC10 : EvalDB :=
  { interviews := [⟨3, 4, 5, "Completed", "LLM Evaluvation Completed", some 50⟩]
    questions := [⟨41, 3, "prompt one", none⟩]
    answers := [⟨51, 41, some "an answer", none, 0⟩]
    knowledge := [] }

/-- Concrete instance of `evaluate_interview_final_score_clamped`: with a
scorer that gives every answer 0, the stored final score is still at
least 1. -/
theorem evaluate_interview_final_score_clamped_witness :
    (dbC10.interviews.find? (fun i => i.id == 3)
        = some ⟨3, 4, 5, "Completed", "LLM Evaluvation Completed", some 50⟩ ∧
      (dbC10.questions.filter (fun q => q.interview_id == 3)).isEmpty = false) ∧
    (∃ raw f,
      (evaluate_interview dbC10 (fun _ _ => 0) 3).2.overall_raw_score = some raw ∧
      (evaluate_interview dbC10 (fun _ _ => 0) 3).2.final_score = some f ∧
      f = pyRound2 (max 1 (min 10 (raw / 10))) ∧
      1 ≤ f ∧ f ≤ 10 ∧
      ∃ i2 ∈ (evaluate_interview dbC10 (fun _ _ => 0) 3).1.interviews,
        i2.id = 3 ∧ i2.final_score = some f ∧
        i2.evaluation_status = "Evaluated") :=
  ⟨⟨by rfl, by rfl⟩,
    evaluate_interview_final_score_clamped dbC10 (fun _ _ => 0) 3
      ⟨3, 4, 5, "Completed", "LLM Evaluvation Completed", some 50⟩
      (by rfl) (by rfl)⟩

end Hireflow
